import Mathlib

/-!
Verification of the near-sandbox high-level module (src/high_level/mod.rs,
src/high_level/config.rs) against its natural-language specification.

The embedding models:
  * serde_json values as the inductive `Sandbox.Value` (objects as ordered
    association lists with unique keys, as produced by serde_json maps);
  * `json_patch::merge` (RFC 7386 merge patch) as `Sandbox.merge`;
  * the filesystem as an association list of file name to content, where a
    write prepends a shadowing entry (`Sandbox.Fs`);
  * environment variables as optional strings (`Sandbox.Env`);
  * Rust panics (`expect`/arithmetic aborts) as a distinguished `panicked`
    outcome, distinct from typed `Result` errors;
  * u128 arithmetic as Nat arithmetic modulo 2^128 (release-mode wrapping
    semantics for the `total_supply` accumulation).
-/

namespace Sandbox

/-- serde_json::Value. Objects carry their fields as an ordered association
list; keys are unique in any value produced by parsing or by the code here. -/
inductive Value where
  | null
  | bool (b : Bool)
  | num (n : Nat)
  | str (s : String)
  | arr (items : List Value)
  | obj (fields : List (String × Value))
deriving Repr

/-- Value::is_null. -/
def Value.isNull : Value → Bool
  | .null => true
  | _ => false

/-- Value::as_str (Some for strings, None otherwise). -/
def Value.asStr : Value → Option String
  | .str s => some s
  | _ => none

/-- The fields of an object, or the empty map for any non-object value
(json_patch::merge replaces a non-object target by an empty object before
merging). -/
def Value.objFields : Value → List (String × Value)
  | .obj fields => fields
  | _ => []

/-- Lookup of a key in an object field list (serde_json Map::get). -/
def getKey : List (String × Value) → String → Option Value
  | [], _ => none
  | (k2, v2) :: rest, k => if k2 = k then some v2 else getKey rest k

/-- Lookup with default (used for Map::entry(..).or_insert(Value::Null)). -/
def getKeyD (fields : List (String × Value)) (k : String) (d : Value) : Value :=
  (getKey fields k).getD d

/-- serde_json Map::insert: replace the value at an existing key in place,
otherwise append the binding. -/
def setKey : List (String × Value) → String → Value → List (String × Value)
  | [], k, v => [(k, v)]
  | (k2, v2) :: rest, k, v =>
    if k2 = k then (k2, v) :: rest else (k2, v2) :: setKey rest k v

/-- serde_json Map::remove. -/
def removeKey (fields : List (String × Value)) (k : String) :
    List (String × Value) :=
  fields.filter (fun p => p.1 ≠ k)

/-- Lookup of a nested path of object keys. -/
def getPath : Value → List String → Option Value
  | v, [] => some v
  | .obj fields, k :: rest =>
    match getKey fields k with
    | some v => getPath v rest
    | none => none
  | _, _ :: _ => none

mutual

/-- json_patch::merge: a non-object patch replaces the target; an object
patch merges key-wise into the target (a non-object target first becomes the
empty object), removing keys whose patch value is null. -/
def merge (doc patch : Value) : Value :=
  match patch with
  | .obj pfs => .obj (mergeFields doc.objFields pfs)
  | _ => patch
termination_by structural patch

/-- The key-wise loop of json_patch::merge over the patch object fields. -/
def mergeFields (base : List (String × Value)) :
    List (String × Value) → List (String × Value)
  | [] => base
  | (k, v) :: rest =>
    let base' :=
      if v.isNull then removeKey base k
      else setKey base k (merge (getKeyD base k Value.null) v)
    mergeFields base' rest
termination_by structural patch => patch

end

/-- Base-10 parse of an unsigned Rust integer of the given bit width
(uN::from_str): an optional leading plus sign, then one or more ASCII
digits, value below 2^bits. -/
def parseUInt (bits : Nat) (s : String) : Option Nat :=
  let chars :=
    match s.data with
    | '+' :: rest => rest
    | cs => cs
  if chars.isEmpty then none
  else if chars.all (fun c => c.isDigit) then
    let n := chars.foldl (fun acc c => acc * 10 + (c.toNat - 48)) 0
    if n < 2 ^ bits then some n else none
  else none

/-- u128::from_str. -/
def parseU128 (s : String) : Option Nat := parseUInt 128 s

/-- usize::from_str (64-bit target). -/
def parseUsize (s : String) : Option Nat := parseUInt 64 s

/-- u64::from_str. -/
def parseU64 (s : String) : Option Nat := parseUInt 64 s

/-! ## Data model (config.rs) -/

def DEFAULT_GENESIS_ACCOUNT : String := "sandbox"

def DEFAULT_GENESIS_ACCOUNT_PRIVATE_KEY : String :=
  "ed25519:3tgdk2wPraJzT4nsTuf86UX41xgPNk3MHnq8epARMdBNs29AFEztAuaQ7iHddDfXG9F2RzV1XNQYgJyAyoW51UBB"

def DEFAULT_GENESIS_ACCOUNT_PUBLIC_KEY : String :=
  "ed25519:5BGSaf6YjVm7565VzWQHNxoyEjwr3jUpRJSGjREvU9dB"

def DEFAULT_GENESIS_ACCOUNT_BALANCE : Nat := 10000 * 10 ^ 24

/-- Genesis account configuration. `balance` is a u128 value. -/
structure GenesisAccount where
  account_id : String
  public_key : String
  private_key : String
  balance : Nat
deriving Repr

/-- impl Default for GenesisAccount. -/
def GenesisAccount.default : GenesisAccount :=
  { account_id := DEFAULT_GENESIS_ACCOUNT
    public_key := DEFAULT_GENESIS_ACCOUNT_PUBLIC_KEY
    private_key := DEFAULT_GENESIS_ACCOUNT_PRIVATE_KEY
    balance := DEFAULT_GENESIS_ACCOUNT_BALANCE }

/-- Configuration for the sandbox (struct SandboxConfig in config.rs).
The RPC and network ports read by mod.rs (`config.rpc_port`,
`config.net_port`) are passed separately to the start model. -/
structure SandboxConfig where
  max_payload_size : Option Nat
  max_open_files : Option Nat
  additional_config : Option Value
  additional_accounts : List GenesisAccount
  additional_genesis : Option Value

/-- impl Default for SandboxConfig (all fields empty). -/
def SandboxConfig.default : SandboxConfig :=
  { max_payload_size := none
    max_open_files := none
    additional_config := none
    additional_accounts := []
    additional_genesis := none }

/-- enum SandboxConfigError. -/
inductive SandboxConfigError where
  | fileError (msg : String)
  | jsonParseError (msg : String)
  | envParseError (msg : String)
deriving Repr, DecidableEq

/-- The result of running a fallible Rust computation: a normal value, a
typed Err carried by Result, or a panic (from expect/unwrap), which unwinds
rather than returning. -/
inductive Outcome (ε α : Type) where
  | ok (a : α)
  | err (e : ε)
  | panicked (msg : String)

/-! ## Environment variables and the filesystem -/

/-- The environment variables the module reads: std::env::var returns the
string value when the variable is present. -/
structure Env where
  maxPayloadSize : Option String
  maxFiles : Option String
  rpcTimeoutSecs : Option String

/-- The content of one file: JSON that parses to a value, or unparseable
bytes. -/
inductive FileContent where
  | json (v : Value)
  | invalid (raw : String)

/-- The sandbox home directory as a map from file name to content. A write
prepends a shadowing entry, so the head occurrence of a name is the current
content and the delta of a run is visible as the new prefix. -/
structure Fs where
  files : List (String × FileContent)

/-- File::open followed by a successful read: the current content, if the
file exists. -/
def readFile (fs : Fs) (name : String) : Option FileContent :=
  (fs.files.find? (fun p => p.1 = name)).map Prod.snd

/-- File::create + write: replace the content of `name`. -/
def writeFile (fs : Fs) (name : String) (c : FileContent) : Fs :=
  ⟨(name, c) :: fs.files⟩

/-- parse_env in config.rs: absent variable is Ok(None); a present value
that fails to parse is a typed EnvParseError; a parsed value is Ok(Some).
The FromStr instance is passed explicitly. -/
def parse_env (val : Option String) (parse : String → Option Nat) :
    Except SandboxConfigError (Option Nat) :=
  match val with
  | some s =>
    match parse s with
    | some v => .ok (some v)
    | none => .error (.envParseError s)
  | none => .ok none

/-! ## Runtime config patching (config.rs) -/

/-- overwrite in config.rs: read and parse config.json, json_patch::merge
the fragment into it, write it back. -/
def overwrite (fs : Fs) (value : Value) : Outcome SandboxConfigError Unit × Fs :=
  match readFile fs "config.json" with
  | none => (.err (.fileError "open config.json"), fs)
  | some (.invalid _) => (.err (.jsonParseError "config.json"), fs)
  | some (.json config) =>
    (.ok (), writeFile fs "config.json" (.json (merge config value)))

/-- Resolution of max_payload_size in set_sandbox_configs_with_config:
the explicit config value, or else the environment value with a parse
error discarded (.ok().flatten()), or else the 1 GiB default. -/
def resolveMaxPayloadSize (env : Env) (config : SandboxConfig) : Nat :=
  ((config.max_payload_size).orElse
    (fun _ => ((parse_env env.maxPayloadSize parseUsize).toOption).join)).getD
    (1024 * 1024 * 1024)

/-- Resolution of max_open_files in set_sandbox_configs_with_config. -/
def resolveMaxOpenFiles (env : Env) (config : SandboxConfig) : Nat :=
  ((config.max_open_files).orElse
    (fun _ => ((parse_env env.maxFiles parseUsize).toOption).join)).getD 3000

/-- The json! fragment built by set_sandbox_configs_with_config. -/
def sandboxJsonConfig (maxPayloadSize maxOpenFiles : Nat) : Value :=
  .obj
    [("rpc", .obj
       [("limits_config", .obj
          [("json_payload_max_size", .num maxPayloadSize)])]),
     ("store", .obj
       [("max_open_files", .num maxOpenFiles)])]

/-- set_sandbox_configs_with_config: resolve the two limits, build the
fragment, merge any additional_config on top, then overwrite config.json. -/
def set_sandbox_configs_with_config (fs : Fs) (env : Env)
    (config : SandboxConfig) : Outcome SandboxConfigError Unit × Fs :=
  let json_config :=
    sandboxJsonConfig (resolveMaxPayloadSize env config)
      (resolveMaxOpenFiles env config)
  let json_config :=
    match config.additional_config with
    | some additional => merge json_config additional
    | none => json_config
  overwrite fs json_config

/-! ## Genesis patching (config.rs) -/

/-- The Account record pushed onto the genesis records array for one
injected account. -/
def accountRecord (account : GenesisAccount) : Value :=
  .obj
    [("Account", .obj
       [("account_id", .str account.account_id),
        ("account", .obj
          [("amount", .str (toString account.balance)),
           ("locked", .str "0"),
           ("code_hash", .str "11111111111111111111111111111111"),
           ("storage_usage", .num 182)])])]

/-- The AccessKey record pushed onto the genesis records array for one
injected account. -/
def accessKeyRecord (account : GenesisAccount) : Value :=
  .obj
    [("AccessKey", .obj
       [("account_id", .str account.account_id),
        ("public_key", .str account.public_key),
        ("access_key", .obj
          [("nonce", .num 0),
           ("permission", .str "FullAccess")])])]

/-- The account set injected into genesis: the default account followed by
the configured additional accounts, in order. -/
def accountsToAdd (config : SandboxConfig) : List GenesisAccount :=
  GenesisAccount.default :: config.additional_accounts

/-- The total_supply accumulation loop: u128 wrapping addition of every
injected balance onto the parsed pre-existing supply. -/
def accumulateSupply (start : Nat) (accounts : List GenesisAccount) : Nat :=
  accounts.foldl (fun supply a => (supply + a.balance) % 2 ^ 128) start

/-- The body of overwrite_genesis on an already-parsed genesis value:
  * panic unless the root is an object (`expected to be object`);
  * panic unless total_supply exists (`expected exist total_supply`);
  * as_str().unwrap_or_default() then u128::from_str(..).unwrap_or_default():
    a non-string or unparseable supply silently becomes 0;
  * add every injected balance, write total_supply back as a string;
  * panic unless records exists (`expect exist records`) and is an array
    (`expected to be array`); push an Account and an AccessKey record per
    injected account;
  * finally merge additional_genesis, if any, over the whole document. -/
def overwriteGenesisValue (genesis : Value) (config : SandboxConfig) :
    Outcome SandboxConfigError Value :=
  match genesis with
  | .obj fields =>
    match getKey fields "total_supply" with
    | none => .panicked "expected exist total_supply"
    | some supplyValue =>
      let supplyStr := (supplyValue.asStr).getD ""
      let supply0 := (parseU128 supplyStr).getD 0
      let accounts := accountsToAdd config
      let total_supply := accumulateSupply supply0 accounts
      let fields1 := setKey fields "total_supply" (.str (toString total_supply))
      match getKey fields1 "records" with
      | none => .panicked "expect exist records"
      | some records =>
        match records with
        | .arr items =>
          let newItems :=
            items ++ accounts.flatMap (fun a => [accountRecord a, accessKeyRecord a])
          let fields2 := setKey fields1 "records" (.arr newItems)
          let genesis1 := Value.obj fields2
          let genesis2 :=
            match config.additional_genesis with
            | some additional => merge genesis1 additional
            | none => genesis1
          .ok genesis2
        | _ => .panicked "expected to be array"
  | _ => .panicked "expected to be object"

/-- overwrite_genesis in config.rs: open and parse genesis.json, run the
patch body, write the result back. -/
def overwrite_genesis (fs : Fs) (config : SandboxConfig) :
    Outcome SandboxConfigError Unit × Fs :=
  match readFile fs "genesis.json" with
  | none => (.err (.fileError "open genesis.json"), fs)
  | some (.invalid _) => (.err (.jsonParseError "genesis.json"), fs)
  | some (.json genesis) =>
    match overwriteGenesisValue genesis config with
    | .ok genesis2 => (.ok (), writeFile fs "genesis.json" (.json genesis2))
    | .err e => (.err e, fs)
    | .panicked msg => (.panicked msg, fs)

/-- The key JSON written for one account by save_account_keys. -/
def keyJson (account : GenesisAccount) : Value :=
  .obj
    [("account_id", .str account.account_id),
     ("public_key", .str account.public_key),
     ("private_key", .str account.private_key)]

/-- save_account_keys: write one `{account_id}.json` file per account
holding its account_id, public_key and private_key. -/
def save_account_keys (fs : Fs) :
    List GenesisAccount → Outcome SandboxConfigError Unit × Fs
  | [] => (.ok (), fs)
  | account :: rest =>
    save_account_keys
      (writeFile fs (account.account_id ++ ".json") (.json (keyJson account)))
      rest

/-- set_sandbox_genesis_with_config: rewrite genesis.json, then (only on
success) write the key files for the default account and every additional
account. -/
def set_sandbox_genesis_with_config (fs : Fs) (config : SandboxConfig) :
    Outcome SandboxConfigError Unit × Fs :=
  match overwrite_genesis fs config with
  | (.ok _, fs1) => save_account_keys fs1 (accountsToAdd config)
  | (e, fs1) => (e, fs1)

/-! ## Port reservation (mod.rs) -/

/-- enum TcpError in mod.rs. -/
inductive TcpError where
  | bindError (port : Nat) (msg : String)
  | localAddrError (msg : String)
  | lockingError (msg : String)
deriving Repr, DecidableEq

/-- The OS responses one port-acquisition attempt can observe: the TCP bind,
the local-address read, the lock-file creation and the exclusive lock
attempt. Each is an input from the environment. -/
structure PortEnv where
  bind : Except String Unit
  localAddr : Except String Nat
  create : Except String Unit
  tryLock : Except String Unit

/-- The lock file path for a port: <tmp>/near-sandbox-port<port>.lock. -/
def lockPath (port : Nat) : String :=
  "near-sandbox-port" ++ toString port ++ ".lock"

/-- pick_unused_port: bind a loopback listener on port 0 and read back the
OS-assigned port. A bind failure carries port 0 (the requested port). -/
def pick_unused_port (env : PortEnv) : Except TcpError Nat :=
  match env.bind with
  | .error msg => .error (.bindError 0 msg)
  | .ok _ =>
    match env.localAddr with
    | .error msg => .error (.localAddrError msg)
    | .ok port => .ok port

/-- try_acquire_specific_port: bind the loopback listener explicitly to the
requested port (a bind failure is a BindError tagged with that port), read
the local address back, create the lock file and take the exclusive lock;
either locking failure is a LockingError, with no retry. -/
def try_acquire_specific_port (env : PortEnv) (port : Nat) :
    Except TcpError (Nat × String) :=
  match env.bind with
  | .error msg => .error (.bindError port msg)
  | .ok _ =>
    match env.localAddr with
    | .error msg => .error (.localAddrError msg)
    | .ok port2 =>
      match env.create with
      | .error msg => .error (.lockingError msg)
      | .ok _ =>
        match env.tryLock with
        | .error msg => .error (.lockingError msg)
        | .ok _ => .ok (port2, lockPath port2)

/-- acquire_unused_port: loop picking an OS-assigned port, creating its lock
file (a creation failure aborts the loop as a LockingError) and trying the
exclusive lock; if the lock is already held, re-pick a fresh port. Each list
entry is the OS behavior of one iteration; an empty list models the loop
running out of iterations to observe (the source loops indefinitely), so the
result is an Option. -/
def acquire_unused_port : List PortEnv → Option (Except TcpError (Nat × String))
  | [] => none
  | env :: rest =>
    match pick_unused_port env with
    | .error e => some (.error e)
    | .ok port =>
      match env.create with
      | .error msg => some (.error (.lockingError msg))
      | .ok _ =>
        match env.tryLock with
        | .ok _ => some (.ok (port, lockPath port))
        | .error _ => acquire_unused_port rest

/-- acquire_or_lock_port: dispatch on whether the caller requested a
specific port. -/
def acquire_or_lock_port (specEnv : PortEnv) (attempts : List PortEnv) :
    Option Nat → Option (Except TcpError (Nat × String))
  | some port => some (try_acquire_specific_port specEnv port)
  | none => acquire_unused_port attempts

/-! ## Lifecycle (mod.rs) -/

/-- Modelled from the spec: enum SandboxError is declared in the crate root
(lib.rs), which is not under src/. Its variants follow the error taxonomy of
spec section 7 and the uses in mod.rs: file errors, process/runtime errors,
port errors (From TcpError), config errors (From SandboxConfigError) and the
readiness timeout. -/
inductive SandboxError where
  | fileError (msg : String)
  | runtimeError (msg : String)
  | tcpError (e : TcpError)
  | configError (e : SandboxConfigError)
  | timeoutError
deriving Repr, DecidableEq

/-- rpc_socket: format "127.0.0.1:<port>". -/
def rpc_socket (port : Nat) : String :=
  "127.0.0.1:" ++ toString port

/-- The readiness-timeout resolution in wait_until_ready: a present
NEAR_RPC_TIMEOUT_SECS is parsed as u64 with
expect("Failed to parse NEAR_RPC_TIMEOUT_SECS") — an unparseable value is a
panic, not an error; an absent variable means 10 seconds. -/
def resolveTimeoutSecs (rpcTimeoutSecs : Option String) :
    Outcome SandboxError Nat :=
  match rpcTimeoutSecs with
  | some secs =>
    match parseU64 secs with
    | some v => .ok v
    | none => .panicked "Failed to parse NEAR_RPC_TIMEOUT_SECS"
  | none => .ok 10

/-- The probe loop of wait_until_ready: up to `n` probes, 500 ms apart;
`probe i` is whether the i-th GET {rpc}/status succeeds. Returns Ok on the
first success, TimeoutError when the budget is exhausted. -/
def waitLoop (probe : Nat → Bool) : Nat → Nat → Outcome SandboxError Unit
  | 0, _ => .err .timeoutError
  | Nat.succ n, i => if probe i then .ok () else waitLoop probe n (i + 1)

/-- wait_until_ready: resolve the timeout budget (in seconds), then probe
the status endpoint timeout_secs * 2 times. -/
def wait_until_ready (rpcTimeoutSecs : Option String) (probe : Nat → Bool) :
    Outcome SandboxError Unit :=
  match resolveTimeoutSecs rpcTimeoutSecs with
  | .ok timeout_secs => waitLoop probe (timeout_secs * 2) 0
  | .err e => .err e
  | .panicked msg => .panicked msg

/-- A spawned child process handle. -/
structure Child where
  pid : Nat
  killOnDrop : Bool

/-- What has become of the launched node process when the start operation
returns. -/
inductive ChildFate where
  | notSpawned
  | running
  | killed
deriving Repr, DecidableEq

/-- Modelled from the spec: run_with_options_with_version is declared in the
crate root (lib.rs), which is not under src/. Spec section 4.3 says a spawn
failure is fatal and surfaced immediately; spec section 5 says any child
handle is owned by a value whose destruction kills it, even on an early
return path, so the returned handle is modelled with kill-on-drop set. -/
def run_with_options_with_version (spawnResult : Except String Nat) :
    Except SandboxError Child :=
  match spawnResult with
  | .error msg => .error (.runtimeError msg)
  | .ok pid => .ok { pid := pid, killOnDrop := true }

/-- Dropping a child handle kills the process exactly when the handle was
configured with kill-on-drop. -/
def dropChild (child : Child) : ChildFate :=
  if child.killOnDrop then .killed else .running

/-- The Sandbox value assembled on success. -/
structure SandboxHandle where
  rpc_addr : String
  rpc_port_lock : String
  net_port_lock : String
  child : Child

/-- The environment behavior of one start_sandbox_with_config_and_version
run: the init step, the OS responses for both port acquisitions, the spawn,
and the rpc_port/net_port fields of the configuration read by mod.rs. -/
structure StartOracle where
  initResult : Except String Unit
  rpcSpec : PortEnv
  rpcAttempts : List PortEnv
  netSpec : PortEnv
  netAttempts : List PortEnv
  spawnResult : Except String Nat
  rpc_port : Option Nat
  net_port : Option Nat

/-- start_sandbox_with_config_and_version: init the home dir, reserve the
RPC and network ports, patch config then genesis, spawn the node, then poll
readiness. On a readiness failure the error propagates out of the function
and the child handle, a local, is dropped on the way out. The result also
exposes the final filesystem and the fate of the child; `none` models the
port-acquisition loop never terminating. -/
def start_sandbox_with_config_and_version (o : StartOracle) (fs : Fs)
    (env : Env) (config : SandboxConfig) (probe : Nat → Bool) :
    Option (Outcome SandboxError SandboxHandle × Fs × ChildFate) :=
  match o.initResult with
  | .error msg => some (.err (.runtimeError msg), fs, .notSpawned)
  | .ok _ =>
  match acquire_or_lock_port o.rpcSpec o.rpcAttempts o.rpc_port with
  | none => none
  | some (.error e) => some (.err (.tcpError e), fs, .notSpawned)
  | some (.ok (rpcPort, rpcLock)) =>
  match acquire_or_lock_port o.netSpec o.netAttempts o.net_port with
  | none => none
  | some (.error e) => some (.err (.tcpError e), fs, .notSpawned)
  | some (.ok (_netPort, netLock)) =>
  match set_sandbox_configs_with_config fs env config with
  | (.err e, fs1) => some (.err (.configError e), fs1, .notSpawned)
  | (.panicked msg, fs1) => some (.panicked msg, fs1, .notSpawned)
  | (.ok _, fs1) =>
  match set_sandbox_genesis_with_config fs1 config with
  | (.err e, fs2) => some (.err (.configError e), fs2, .notSpawned)
  | (.panicked msg, fs2) => some (.panicked msg, fs2, .notSpawned)
  | (.ok _, fs2) =>
  match run_with_options_with_version o.spawnResult with
  | .error e => some (.err e, fs2, .notSpawned)
  | .ok child =>
  match wait_until_ready env.rpcTimeoutSecs probe with
  | .ok _ =>
    some (.ok
      { rpc_addr := "http://" ++ rpc_socket rpcPort
        rpc_port_lock := rpcLock
        net_port_lock := netLock
        child := child }, fs2, .running)
  | .err e => some (.err e, fs2, dropChild child)
  | .panicked msg => some (.panicked msg, fs2, dropChild child)

/-- How the Drop implementation for Sandbox finishes. -/
inductive DropOutcome where
  | completed
  | panicked (msg : String)
deriving Repr, DecidableEq

/-- impl Drop for Sandbox: start_kill() followed by
expect("failed to kill sandbox") — a kill failure panics — then
`let _ = try_wait()`, whose result is discarded whatever it is. The two OS
call results are inputs. -/
def sandboxDrop (startKillResult : Except String Unit)
    (tryWaitResult : Except String (Option Nat)) : DropOutcome :=
  match startKillResult with
  | .error _ => .panicked "failed to kill sandbox"
  | .ok _ =>
    let _ := tryWaitResult
    .completed

/-! ## Helper lemmas -/

theorem getKey_setKey_self (fields : List (String × Value)) (k : String)
    (v : Value) : getKey (setKey fields k v) k = some v := by
  induction fields with
  | nil => simp [setKey, getKey]
  | cons p rest ih =>
    obtain ⟨k2, v2⟩ := p
    by_cases h : k2 = k <;> simp [setKey, getKey, h, ih]

theorem getKey_setKey_ne (fields : List (String × Value)) (k k2 : String)
    (v : Value) (h : k ≠ k2) :
    getKey (setKey fields k2 v) k = getKey fields k := by
  have hne : k2 ≠ k := Ne.symm h
  induction fields with
  | nil => simp [setKey, getKey, hne]
  | cons p rest ih =>
    obtain ⟨k3, v3⟩ := p
    by_cases h3 : k3 = k2
    · subst h3
      simp [setKey, getKey, hne]
    · simp only [setKey, getKey, h3, if_false]
      by_cases h4 : k3 = k <;> simp [h4, ih]

theorem waitLoop_all_fail (probe : Nat → Bool) (h : ∀ i, probe i = false) :
    ∀ n i, waitLoop probe n i = .err .timeoutError := by
  intro n
  induction n with
  | zero => intro i; simp [waitLoop]
  | succ m ih => intro i; simp [waitLoop, h i, ih]

theorem save_account_keys_spec (accounts : List GenesisAccount) :
    ∀ fs : Fs, save_account_keys fs accounts =
      (.ok (), ⟨(accounts.map
        (fun a => (a.account_id ++ ".json", FileContent.json (keyJson a)))).reverse
          ++ fs.files⟩) := by
  induction accounts with
  | nil => intro fs; simp [save_account_keys]
  | cons a rest ih =>
    intro fs
    simp [save_account_keys, ih, writeFile]

theorem accumulateSupply_eq_sum (accounts : List GenesisAccount) :
    ∀ start : Nat,
      start + (accounts.map (fun a => a.balance)).sum < 2 ^ 128 →
      accumulateSupply start accounts =
        start + (accounts.map (fun a => a.balance)).sum := by
  induction accounts with
  | nil => intro start h; simp [accumulateSupply]
  | cons a rest ih =>
    intro start h
    simp only [List.map_cons, List.sum_cons] at h
    have hstep : start + a.balance < 2 ^ 128 := by omega
    have : accumulateSupply start (a :: rest) =
        accumulateSupply ((start + a.balance) % 2 ^ 128) rest := rfl
    rw [this, Nat.mod_eq_of_lt hstep, ih (start + a.balance) (by omega)]
    simp only [List.map_cons, List.sum_cons]
    omega

theorem overwriteGenesisValue_eq (fields : List (String × Value))
    (supplyValue : Value) (items : List Value) (config : SandboxConfig)
    (h1 : getKey fields "total_supply" = some supplyValue)
    (h2 : getKey fields "records" = some (.arr items)) :
    overwriteGenesisValue (.obj fields) config =
      (let total := accumulateSupply
          ((parseU128 ((supplyValue.asStr).getD "")).getD 0)
          (accountsToAdd config)
       let fields2 := setKey
          (setKey fields "total_supply" (.str (toString total)))
          "records" (.arr (items ++ (accountsToAdd config).flatMap
            (fun a => [accountRecord a, accessKeyRecord a])))
       match config.additional_genesis with
       | some additional => .ok (merge (.obj fields2) additional)
       | none => .ok (.obj fields2)) := by
  have hr : getKey (setKey fields "total_supply"
      (.str (toString (accumulateSupply
        ((parseU128 ((supplyValue.asStr).getD "")).getD 0)
        (accountsToAdd config))))) "records" = some (.arr items) := by
    rw [getKey_setKey_ne _ _ _ _ (by decide)]; exact h2
  unfold overwriteGenesisValue
  simp only [h1, hr]
  cases config.additional_genesis <;> rfl

theorem getPath_total_supply (fields : List (String × Value)) (v : Value)
    (extra : Value) :
    getPath (.obj (setKey (setKey fields "total_supply" v) "records" extra))
      ["total_supply"] = some v := by
  simp only [getPath]
  rw [getKey_setKey_ne _ _ _ _ (by decide), getKey_setKey_self]

/-! ## Claims -/

/-- C8: the deep-merge operation is idempotent on an empty fragment — for
every JSON object target, merging an empty JSON-object fragment into it
leaves the target equal, as a JSON value, to its pre-merge state. -/
theorem merge_empty_fragment_identity (fields : List (String × Value)) :
    merge (.obj fields) (.obj []) = .obj fields := rfl

/-- C2 counterexample: when the kill request fails (for example, the process
no longer exists), the teardown sequence does not tolerate the failure — it
panics with "failed to kill sandbox" instead of completing, refuting the
claim that destruction never fails for every state of the child. -/
theorem drop_kill_failure_panics_cex :
    sandboxDrop (.error "No such process (os error 3)") (.ok none) =
        .panicked "failed to kill sandbox" ∧
      sandboxDrop (.error "No such process (os error 3)") (.ok none) ≠
        .completed := by
  exact ⟨rfl, by decide⟩

/-- C2 amended: the drop sequence always requests a kill of the child and
then best-effort reaps it, and a failed reap is tolerated whatever its
result; but a failed kill request is not tolerated — it panics (aborts the
teardown) with "failed to kill sandbox". -/
theorem drop_reap_tolerated_kill_panics :
    (∀ r : Except String (Option Nat), sandboxDrop (.ok ()) r = .completed) ∧
    (∀ (msg : String) (r : Except String (Option Nat)),
      sandboxDrop (.error msg) r = .panicked "failed to kill sandbox") :=
  ⟨fun _ => rfl, fun _ _ => rfl⟩

/-- C10: if the genesis rewrite step fails with an error (file open failure
or JSON parse failure), set_sandbox_genesis_with_config returns that very
error and the filesystem is exactly the input one: no account key file has
been written. -/
theorem genesis_error_no_key_files (fs : Fs) (config : SandboxConfig)
    (e : SandboxConfigError) (fs1 : Fs)
    (h : overwrite_genesis fs config = (.err e, fs1)) :
    set_sandbox_genesis_with_config fs config = (.err e, fs1) ∧ fs1 = fs := by
  constructor
  · simp [set_sandbox_genesis_with_config, h]
  · unfold overwrite_genesis at h
    rcases hr : readFile fs "genesis.json" with _ | c
    · rw [hr] at h
      exact (Prod.mk.injEq _ _ _ _ ▸ h).2.symm
    · rw [hr] at h
      cases c with
      | invalid raw => exact (Prod.mk.injEq _ _ _ _ ▸ h).2.symm
      | json genesis =>
        simp only at h
        rcases hg : overwriteGenesisValue genesis config with out | e2 | msg <;>
          rw [hg] at h <;> simp_all

/-- C10 witness. -/
theorem genesis_error_no_key_files_witness :
    set_sandbox_genesis_with_config ⟨[]⟩ SandboxConfig.default =
        (.err (.fileError "open genesis.json"), (⟨[]⟩ : Fs)) ∧
      (⟨[]⟩ : Fs) = ⟨[]⟩ :=
  genesis_error_no_key_files ⟨[]⟩ SandboxConfig.default
    (.fileError "open genesis.json") ⟨[]⟩ rfl

/-- C3 counterexample: with a genesis file whose total_supply is "100" and
a SandboxConfig whose additional_genesis fragment sets total_supply to "7",
the patch writes back total_supply "7" — not the pre-existing value plus the
sum of the injected balances (which would be 100 + 10^28), because the
additional_genesis merge runs after the supply update and overrides it. -/
theorem genesis_total_supply_override_cex :
    (∃ out, overwriteGenesisValue
        (.obj [("total_supply", .str "100"), ("records", .arr [])])
        { SandboxConfig.default with
            additional_genesis := some (.obj [("total_supply", .str "7")]) } =
          .ok out ∧
      getPath out ["total_supply"] = some (.str "7")) ∧
    "7" ≠ toString (100 + DEFAULT_GENESIS_ACCOUNT_BALANCE) :=
  ⟨⟨_, rfl, rfl⟩, by decide⟩

/-- C3 amended: for every SandboxConfig that supplies no additional_genesis
fragment, and every genesis object whose total_supply is a string parsing as
a u128 and whose records is an array, provided the pre-existing supply plus
the injected balances does not overflow u128 (the accumulation wraps modulo
2^128 otherwise), the patch writes back a total_supply equal to the
pre-existing value plus the sum of the balances of the default genesis
account and all additional accounts. -/
theorem genesis_total_supply_sum (fields : List (String × Value))
    (supplyStr : String) (ts : Nat) (items : List Value)
    (config : SandboxConfig)
    (hag : config.additional_genesis = none)
    (h1 : getKey fields "total_supply" = some (.str supplyStr))
    (hp : parseU128 supplyStr = some ts)
    (h2 : getKey fields "records" = some (.arr items))
    (hov : ts + ((accountsToAdd config).map (fun a => a.balance)).sum
      < 2 ^ 128) :
    ∃ out, overwriteGenesisValue (.obj fields) config = .ok out ∧
      getPath out ["total_supply"] = some (.str (toString (ts +
        ((accountsToAdd config).map (fun a => a.balance)).sum))) := by
  rw [overwriteGenesisValue_eq fields (.str supplyStr) items config h1 h2]
  simp only [Value.asStr, Option.getD_some, hp, hag,
    accumulateSupply_eq_sum _ _ hov]
  exact ⟨_, rfl, getPath_total_supply _ _ _⟩

/-- C3 amended witness: a genesis with supply "100" and one additional
account with balance 5 * 10^24; the written supply is
100 + 10^28 + 5 * 10^24. -/
theorem genesis_total_supply_sum_witness :
    ∃ out, overwriteGenesisValue
        (.obj [("total_supply", .str "100"), ("records", .arr [])])
        { SandboxConfig.default with additional_accounts :=
            [{ account_id := "carol", public_key := "pk", private_key := "sk",
               balance := 5 * 10 ^ 24 }] } = .ok out ∧
      getPath out ["total_supply"] = some (.str (toString (100 +
        ((accountsToAdd { SandboxConfig.default with additional_accounts :=
            [{ account_id := "carol", public_key := "pk", private_key := "sk",
               balance := 5 * 10 ^ 24 }] }).map
          (fun a => a.balance)).sum))) :=
  genesis_total_supply_sum _ "100" 100 [] _ rfl rfl (by decide) rfl (by decide)

/-- C9 counterexample: a genesis object whose records key is present but is
not an array also aborts (panic "expected to be array") — a fourth abort
case beyond the three the claim says are the only ones (missing
total_supply, missing records, non-object root). -/
theorem genesis_abort_nonarray_records_cex :
    overwriteGenesisValue
        (.obj [("total_supply", .str "0"), ("records", .str "x")])
        SandboxConfig.default = .panicked "expected to be array" ∧
      getKey [("total_supply", Value.str "0"), ("records", Value.str "x")]
        "total_supply" = some (.str "0") ∧
      getKey [("total_supply", Value.str "0"), ("records", Value.str "x")]
        "records" = some (.str "x") :=
  ⟨rfl, rfl, rfl⟩

/-- C9 amended: a present total_supply that is not a JSON string, or is a
string that does not parse as a u128, is not an error: the pre-existing
supply is silently treated as 0 and the written total_supply is just the sum
of the injected balances (when that sum fits in u128). A missing
total_supply key, a missing records key, a records value that is not an
array, or a non-object genesis root aborts with a panic. -/
theorem genesis_supply_default_and_aborts :
    (∀ (fields : List (String × Value)) (supplyValue : Value)
       (items : List Value) (accounts : List GenesisAccount),
      getKey fields "total_supply" = some supplyValue →
      parseU128 ((supplyValue.asStr).getD "") = none →
      getKey fields "records" = some (.arr items) →
      ((GenesisAccount.default :: accounts).map (fun a => a.balance)).sum
        < 2 ^ 128 →
      ∃ out, overwriteGenesisValue (.obj fields)
          { SandboxConfig.default with additional_accounts := accounts } =
        .ok out ∧
        getPath out ["total_supply"] = some (.str (toString
          (((GenesisAccount.default :: accounts).map
            (fun a => a.balance)).sum)))) ∧
    (∀ (fields : List (String × Value)) (config : SandboxConfig),
      getKey fields "total_supply" = none →
      overwriteGenesisValue (.obj fields) config =
        .panicked "expected exist total_supply") ∧
    (∀ (fields : List (String × Value)) (config : SandboxConfig) (v : Value),
      getKey fields "total_supply" = some v →
      getKey fields "records" = none →
      overwriteGenesisValue (.obj fields) config =
        .panicked "expect exist records") ∧
    (∀ (g : Value) (config : SandboxConfig),
      (∀ fields, g ≠ .obj fields) →
      overwriteGenesisValue g config = .panicked "expected to be object") ∧
    (∀ (fields : List (String × Value)) (config : SandboxConfig)
       (v r : Value),
      getKey fields "total_supply" = some v →
      getKey fields "records" = some r →
      (∀ items, r ≠ .arr items) →
      overwriteGenesisValue (.obj fields) config =
        .panicked "expected to be array") := by
  refine ⟨?_, ?_, ?_, ?_, ?_⟩
  · intro fields supplyValue items accounts h1 hp h2 hov
    rw [overwriteGenesisValue_eq fields supplyValue items _ h1 h2]
    simp only [hp, Option.getD_none]
    have := accumulateSupply_eq_sum (GenesisAccount.default :: accounts) 0
      (by simpa using hov)
    simp only [accountsToAdd, this, Nat.zero_add]
    exact ⟨_, rfl, getPath_total_supply _ _ _⟩
  · intro fields config h
    unfold overwriteGenesisValue
    simp only [h]
  · intro fields config v h1 h2
    have hr : getKey (setKey fields "total_supply"
        (.str (toString (accumulateSupply
          ((parseU128 ((v.asStr).getD "")).getD 0)
          (accountsToAdd config))))) "records" = none := by
      rw [getKey_setKey_ne _ _ _ _ (by decide)]; exact h2
    unfold overwriteGenesisValue
    simp only [h1, hr]
  · intro g config h
    cases g with
    | obj fields => exact absurd rfl (h fields)
    | null => rfl
    | bool b => rfl
    | num n => rfl
    | str s => rfl
    | arr items => rfl
  · intro fields config v r h1 h2 h3
    have hr : getKey (setKey fields "total_supply"
        (.str (toString (accumulateSupply
          ((parseU128 ((v.asStr).getD "")).getD 0)
          (accountsToAdd config))))) "records" = some r := by
      rw [getKey_setKey_ne _ _ _ _ (by decide)]; exact h2
    unfold overwriteGenesisValue
    simp only [h1, hr]

/-- C9 amended witness: a numeric (non-string) total_supply is silently
treated as 0; each of the four abort shapes panics with its message. -/
theorem genesis_supply_default_and_aborts_witness :
    (∃ out, overwriteGenesisValue
        (.obj [("total_supply", .num 5), ("records", .arr [])])
        { SandboxConfig.default with additional_accounts := [] } = .ok out ∧
      getPath out ["total_supply"] = some (.str (toString
        (((GenesisAccount.default :: ([] : List GenesisAccount)).map
          (fun a => a.balance)).sum)))) ∧
    overwriteGenesisValue (.obj []) SandboxConfig.default =
      .panicked "expected exist total_supply" ∧
    overwriteGenesisValue (.obj [("total_supply", .str "1")])
      SandboxConfig.default = .panicked "expect exist records" ∧
    overwriteGenesisValue (.num 3) SandboxConfig.default =
      .panicked "expected to be object" ∧
    overwriteGenesisValue
      (.obj [("total_supply", .str "1"), ("records", .obj [])])
      SandboxConfig.default = .panicked "expected to be array" :=
  ⟨genesis_supply_default_and_aborts.1 _ (.num 5) [] [] rfl rfl rfl
      (by decide),
   genesis_supply_default_and_aborts.2.1 [] _ rfl,
   genesis_supply_default_and_aborts.2.2.1 _ _ (.str "1") rfl rfl,
   genesis_supply_default_and_aborts.2.2.2.1 _ _
     (fun fields h => Value.noConfusion h),
   genesis_supply_default_and_aborts.2.2.2.2 _ _ (.str "1") (.obj []) rfl rfl
     (fun items h => Value.noConfusion h)⟩

/-- C6: for every list of additional accounts (the rest of the
configuration left default, in particular no additional_genesis fragment)
and every genesis object with a total_supply key and a records array, the
patch appends to the records array exactly one Account record and exactly
one AccessKey record per injected account — the default account followed by
the additional accounts in the order supplied — and the key-file writer
performs exactly one write per injected account, to `{account_id}.json`,
whose JSON content has account_id, public_key and private_key equal to that
account's fields. -/
theorem genesis_records_and_key_files (fields : List (String × Value))
    (supplyValue : Value) (items : List Value)
    (accounts : List GenesisAccount) (fs : Fs)
    (h1 : getKey fields "total_supply" = some supplyValue)
    (h2 : getKey fields "records" = some (.arr items)) :
    (∃ fields2,
      overwriteGenesisValue (.obj fields)
          { SandboxConfig.default with additional_accounts := accounts } =
        .ok (.obj fields2) ∧
      getKey fields2 "records" = some (.arr (items ++
        (GenesisAccount.default :: accounts).flatMap
          (fun a => [accountRecord a, accessKeyRecord a])))) ∧
    save_account_keys fs (GenesisAccount.default :: accounts) =
      (.ok (), ⟨((GenesisAccount.default :: accounts).map
        (fun a => (a.account_id ++ ".json", FileContent.json (.obj
          [("account_id", .str a.account_id),
           ("public_key", .str a.public_key),
           ("private_key", .str a.private_key)])))).reverse
        ++ fs.files⟩) := by
  constructor
  · rw [overwriteGenesisValue_eq fields supplyValue items _ h1 h2]
    exact ⟨_, rfl, getKey_setKey_self _ _ _⟩
  · rw [save_account_keys_spec]
    simp only [keyJson]

/-- C6 witness: one additional account "carol"; the records array receives
the four records in order and the two key files are written. -/
theorem genesis_records_and_key_files_witness :
    (∃ fields2,
      overwriteGenesisValue
          (.obj [("total_supply", .str "0"), ("records", .arr [])])
          { SandboxConfig.default with additional_accounts :=
              [{ account_id := "carol", public_key := "pk",
                 private_key := "sk", balance := 7 }] } =
        .ok (.obj fields2) ∧
      getKey fields2 "records" = some (.arr ([] ++
        (GenesisAccount.default ::
          [{ account_id := "carol", public_key := "pk",
             private_key := "sk", balance := 7 }]).flatMap
          (fun a => [accountRecord a, accessKeyRecord a])))) ∧
    save_account_keys (⟨[]⟩ : Fs) (GenesisAccount.default ::
        [{ account_id := "carol", public_key := "pk",
           private_key := "sk", balance := 7 }]) =
      (.ok (), ⟨((GenesisAccount.default ::
          [GenesisAccount.mk "carol" "pk" "sk" 7]).map
        (fun a => (a.account_id ++ ".json", FileContent.json (.obj
          [("account_id", .str a.account_id),
           ("public_key", .str a.public_key),
           ("private_key", .str a.private_key)])))).reverse
        ++ ([] : List (String × FileContent))⟩) :=
  genesis_records_and_key_files _ (.str "0") [] _ ⟨[]⟩ rfl rfl

theorem getPath_merge_sandboxJson (c : Value) (mps mof : Nat) :
    getPath (merge c (sandboxJsonConfig mps mof))
        ["rpc", "limits_config", "json_payload_max_size"] = some (.num mps) ∧
    getPath (merge c (sandboxJsonConfig mps mof))
        ["store", "max_open_files"] = some (.num mof) := by
  constructor
  · show getPath (.obj (setKey (setKey c.objFields "rpc" _) "store" _)) _ = _
    simp only [getPath]
    rw [getKey_setKey_ne _ _ _ _ (by decide), getKey_setKey_self]
    show getPath (.obj (setKey _ "limits_config" _)) _ = _
    simp only [getPath]
    rw [getKey_setKey_self]
    show getPath (.obj (setKey _ "json_payload_max_size" (.num mps))) _ = _
    simp only [getPath]
    rw [getKey_setKey_self]
  · show getPath (.obj (setKey (setKey c.objFields "rpc" _) "store" _)) _ = _
    simp only [getPath]
    rw [getKey_setKey_self]
    show getPath (.obj (setKey _ "max_open_files" (.num mof))) _ = _
    simp only [getPath]
    rw [getKey_setKey_self]

/-- C7: the runtime-config patch resolves max_payload_size as the explicit
config value if present, else the parsed NEAR_SANDBOX_MAX_PAYLOAD_SIZE
environment override if one is obtainable, else 1 GiB (1073741824 bytes);
resolves max_open_files as the explicit config value, else the parsed
NEAR_SANDBOX_MAX_FILES override, else 3000; and (with no additional_config
fragment) rewrites config.json so the resolved values sit at the nested
paths rpc.limits_config.json_payload_max_size and store.max_open_files. -/
theorem runtime_config_resolution :
    (∀ (env : Env) (config : SandboxConfig) (v : Nat),
      config.max_payload_size = some v →
      resolveMaxPayloadSize env config = v) ∧
    (∀ (env : Env) (config : SandboxConfig) (s : String) (w : Nat),
      config.max_payload_size = none → env.maxPayloadSize = some s →
      parseUsize s = some w → resolveMaxPayloadSize env config = w) ∧
    (∀ (env : Env) (config : SandboxConfig),
      config.max_payload_size = none → env.maxPayloadSize = none →
      resolveMaxPayloadSize env config = 1073741824) ∧
    (∀ (env : Env) (config : SandboxConfig) (v : Nat),
      config.max_open_files = some v → resolveMaxOpenFiles env config = v) ∧
    (∀ (env : Env) (config : SandboxConfig) (s : String) (w : Nat),
      config.max_open_files = none → env.maxFiles = some s →
      parseUsize s = some w → resolveMaxOpenFiles env config = w) ∧
    (∀ (env : Env) (config : SandboxConfig),
      config.max_open_files = none → env.maxFiles = none →
      resolveMaxOpenFiles env config = 3000) ∧
    (∀ (fs : Fs) (env : Env) (config : SandboxConfig) (c : Value),
      config.additional_config = none →
      readFile fs "config.json" = some (.json c) →
      ∃ c2, set_sandbox_configs_with_config fs env config =
          (.ok (), writeFile fs "config.json" (.json c2)) ∧
        getPath c2 ["rpc", "limits_config", "json_payload_max_size"] =
          some (.num (resolveMaxPayloadSize env config)) ∧
        getPath c2 ["store", "max_open_files"] =
          some (.num (resolveMaxOpenFiles env config))) := by
  refine ⟨?_, ?_, ?_, ?_, ?_, ?_, ?_⟩
  · intro env config v h
    simp [resolveMaxPayloadSize, h, Option.orElse]
  · intro env config s w h1 h2 hp
    simp [resolveMaxPayloadSize, h1, h2, hp, parse_env, Option.orElse,
      Except.toOption]
  · intro env config h1 h2
    simp [resolveMaxPayloadSize, h1, h2, parse_env, Option.orElse,
      Except.toOption]
  · intro env config v h
    simp [resolveMaxOpenFiles, h, Option.orElse]
  · intro env config s w h1 h2 hp
    simp [resolveMaxOpenFiles, h1, h2, hp, parse_env, Option.orElse,
      Except.toOption]
  · intro env config h1 h2
    simp [resolveMaxOpenFiles, h1, h2, parse_env, Option.orElse,
      Except.toOption]
  · intro fs env config c hac hfs
    refine ⟨merge c (sandboxJsonConfig (resolveMaxPayloadSize env config)
      (resolveMaxOpenFiles env config)), ?_,
      (getPath_merge_sandboxJson c _ _).1, (getPath_merge_sandboxJson c _ _).2⟩
    unfold set_sandbox_configs_with_config overwrite
    simp only [hac, hfs]

/-- C7 witness: explicit value 5 wins; env override 77 wins when the config
is silent; defaults apply when both are absent; and the values land at the
two nested paths of the rewritten config.json. -/
theorem runtime_config_resolution_witness :
    resolveMaxPayloadSize ⟨none, none, none⟩
        { SandboxConfig.default with max_payload_size := some 5 } = 5 ∧
    resolveMaxPayloadSize ⟨some "77", none, none⟩ SandboxConfig.default = 77 ∧
    resolveMaxPayloadSize ⟨none, none, none⟩ SandboxConfig.default =
      1073741824 ∧
    resolveMaxOpenFiles ⟨none, none, none⟩
        { SandboxConfig.default with max_open_files := some 6 } = 6 ∧
    resolveMaxOpenFiles ⟨none, some "88", none⟩ SandboxConfig.default = 88 ∧
    resolveMaxOpenFiles ⟨none, none, none⟩ SandboxConfig.default = 3000 ∧
    (∃ c2, set_sandbox_configs_with_config
        ⟨[("config.json", .json (.obj []))]⟩ ⟨none, none, none⟩
        SandboxConfig.default =
          (.ok (), writeFile ⟨[("config.json", .json (.obj []))]⟩
            "config.json" (.json c2)) ∧
      getPath c2 ["rpc", "limits_config", "json_payload_max_size"] =
        some (.num (resolveMaxPayloadSize ⟨none, none, none⟩
          SandboxConfig.default)) ∧
      getPath c2 ["store", "max_open_files"] =
        some (.num (resolveMaxOpenFiles ⟨none, none, none⟩
          SandboxConfig.default))) :=
  ⟨runtime_config_resolution.1 _ _ 5 rfl,
   runtime_config_resolution.2.1 _ _ "77" 77 rfl rfl rfl,
   runtime_config_resolution.2.2.1 _ _ rfl rfl,
   runtime_config_resolution.2.2.2.1 _ _ 6 rfl,
   runtime_config_resolution.2.2.2.2.1 _ _ "88" 88 rfl rfl rfl,
   runtime_config_resolution.2.2.2.2.2.1 _ _ rfl rfl,
   runtime_config_resolution.2.2.2.2.2.2 _ _ _ (.obj []) rfl rfl⟩

/-- C5 counterexample: with NEAR_SANDBOX_MAX_PAYLOAD_SIZE set to the
unparseable "not-a-number", parse_env does produce a typed EnvParseError,
but set_sandbox_configs_with_config discards it (.ok().flatten()) and
returns Ok using the 1 GiB default — the parse error is not surfaced to the
caller; and an unparseable NEAR_RPC_TIMEOUT_SECS makes wait_until_ready
panic (abort), not return a typed error. -/
theorem env_parse_error_swallowed_cex :
    parse_env (some "not-a-number") parseUsize =
        .error (.envParseError "not-a-number") ∧
    (set_sandbox_configs_with_config ⟨[("config.json", .json (.obj []))]⟩
        ⟨some "not-a-number", none, some "zzz"⟩ SandboxConfig.default).1 =
      .ok () ∧
    resolveMaxPayloadSize ⟨some "not-a-number", none, some "zzz"⟩
        SandboxConfig.default = 1073741824 ∧
    wait_until_ready (some "zzz") (fun _ => true) =
      .panicked "Failed to parse NEAR_RPC_TIMEOUT_SECS" :=
  ⟨rfl, rfl, rfl, rfl⟩

/-- C5 amended: parse_env itself returns a typed, distinguishable
EnvParseError for a present but unparseable value, but
set_sandbox_configs_with_config silently discards that error and falls back
to the default for NEAR_SANDBOX_MAX_PAYLOAD_SIZE and NEAR_SANDBOX_MAX_FILES,
and an unparseable NEAR_RPC_TIMEOUT_SECS aborts (panics) in
wait_until_ready rather than producing a typed result. -/
theorem env_parse_error_behavior :
    (∀ (s : String) (p : String → Option Nat), p s = none →
      parse_env (some s) p = .error (.envParseError s)) ∧
    (∀ (env : Env) (config : SandboxConfig) (s : String),
      config.max_payload_size = none → env.maxPayloadSize = some s →
      parseUsize s = none → resolveMaxPayloadSize env config = 1073741824) ∧
    (∀ (env : Env) (config : SandboxConfig) (s : String),
      config.max_open_files = none → env.maxFiles = some s →
      parseUsize s = none → resolveMaxOpenFiles env config = 3000) ∧
    (∀ (s : String) (probe : Nat → Bool), parseU64 s = none →
      wait_until_ready (some s) probe =
        .panicked "Failed to parse NEAR_RPC_TIMEOUT_SECS") := by
  refine ⟨?_, ?_, ?_, ?_⟩
  · intro s p h
    simp [parse_env, h]
  · intro env config s h1 h2 hp
    simp [resolveMaxPayloadSize, h1, h2, hp, parse_env, Option.orElse,
      Except.toOption]
  · intro env config s h1 h2 hp
    simp [resolveMaxOpenFiles, h1, h2, hp, parse_env, Option.orElse,
      Except.toOption]
  · intro s probe h
    simp [wait_until_ready, resolveTimeoutSecs, h]

/-- C5 amended witness. -/
theorem env_parse_error_behavior_witness :
    parse_env (some "abc") parseUsize = .error (.envParseError "abc") ∧
    resolveMaxPayloadSize ⟨some "abc", none, none⟩ SandboxConfig.default =
      1073741824 ∧
    resolveMaxOpenFiles ⟨none, some "abc", none⟩ SandboxConfig.default =
      3000 ∧
    wait_until_ready (some "abc") (fun _ => false) =
      .panicked "Failed to parse NEAR_RPC_TIMEOUT_SECS" :=
  ⟨env_parse_error_behavior.1 "abc" parseUsize rfl,
   env_parse_error_behavior.2.1 _ _ "abc" rfl rfl rfl,
   env_parse_error_behavior.2.2.1 _ _ "abc" rfl rfl rfl,
   env_parse_error_behavior.2.2.2 "abc" _ rfl⟩

/-- C1 (spawn kill-on-drop modelled from the spec): when every step up to
the spawn succeeds and the launched node never answers the status probe,
the start operation returns the timeout error and, because the error path
drops the child handle before returning, the child process is killed: no
child process remains running afterward. -/
theorem timeout_start_kills_child (o : StartOracle) (fs : Fs) (env : Env)
    (config : SandboxConfig) (probe : Nat → Bool) (t pid : Nat)
    (rp np : Nat × String) (fsA fsB : Fs)
    (h1 : o.initResult = .ok ())
    (h2 : acquire_or_lock_port o.rpcSpec o.rpcAttempts o.rpc_port =
      some (.ok rp))
    (h3 : acquire_or_lock_port o.netSpec o.netAttempts o.net_port =
      some (.ok np))
    (h4 : set_sandbox_configs_with_config fs env config = (.ok (), fsA))
    (h5 : set_sandbox_genesis_with_config fsA config = (.ok (), fsB))
    (h6 : o.spawnResult = .ok pid)
    (h7 : resolveTimeoutSecs env.rpcTimeoutSecs = .ok t)
    (h8 : ∀ i, probe i = false) :
    start_sandbox_with_config_and_version o fs env config probe =
      some (.err .timeoutError, fsB, .killed) := by
  obtain ⟨rpcPort, rpcLock⟩ := rp
  obtain ⟨netPort, netLock⟩ := np
  unfold start_sandbox_with_config_and_version
  simp only [h1, h2, h3, h4, h5, h6, run_with_options_with_version]
  unfold wait_until_ready
  simp only [h7, waitLoop_all_fail probe h8]
  rfl

/-- C1 witness: a concrete run — init succeeds, ports 3030/3031 are
reserved, config and genesis are patched, pid 42 is spawned, every probe
fails — ends in the timeout error with the child killed. -/
theorem timeout_start_kills_child_witness :
    start_sandbox_with_config_and_version
        ⟨.ok (), ⟨.ok (), .ok 0, .ok (), .ok ()⟩,
         [⟨.ok (), .ok 3030, .ok (), .ok ()⟩],
         ⟨.ok (), .ok 0, .ok (), .ok ()⟩,
         [⟨.ok (), .ok 3031, .ok (), .ok ()⟩],
         .ok 42, none, none⟩
        ⟨[("config.json", .json (.obj [])),
          ("genesis.json", .json (.obj [("total_supply", .str "0"),
            ("records", .arr [])]))]⟩
        ⟨none, none, none⟩ SandboxConfig.default (fun _ => false) =
      some (.err .timeoutError,
        (set_sandbox_genesis_with_config
          (set_sandbox_configs_with_config
            ⟨[("config.json", .json (.obj [])),
              ("genesis.json", .json (.obj [("total_supply", .str "0"),
                ("records", .arr [])]))]⟩
            ⟨none, none, none⟩ SandboxConfig.default).2
          SandboxConfig.default).2, .killed) :=
  timeout_start_kills_child _ _ _ _ _ 10 42
    (3030, lockPath 3030) (3031, lockPath 3031) _ _
    rfl rfl rfl rfl rfl rfl rfl (fun _ => rfl)

/-- C4: requesting a specific port fails immediately with a bind error
tagged with that port when the bind fails, and fails with a locking error,
without any retry, when the exclusive file lock cannot be acquired; and the
OS-assigned path never returns successfully without having acquired the
exclusive file lock of the very attempt that produced the returned port,
re-picking a fresh port whenever the lock is already held. -/
theorem port_reservation_lock_discipline :
    (∀ (env : PortEnv) (p : Nat) (msg : String), env.bind = .error msg →
      try_acquire_specific_port env p = .error (.bindError p msg)) ∧
    (∀ (env : PortEnv) (p p2 : Nat) (msg : String), env.bind = .ok () →
      env.localAddr = .ok p2 → env.create = .ok () →
      env.tryLock = .error msg →
      try_acquire_specific_port env p = .error (.lockingError msg)) ∧
    (∀ (attempts : List PortEnv) (port : Nat) (lock : String),
      acquire_unused_port attempts = some (.ok (port, lock)) →
      ∃ env ∈ attempts, pick_unused_port env = .ok port ∧
        env.tryLock = .ok () ∧ lock = lockPath port) ∧
    (∀ (env : PortEnv) (rest : List PortEnv) (port : Nat) (msg : String),
      pick_unused_port env = .ok port → env.create = .ok () →
      env.tryLock = .error msg →
      acquire_unused_port (env :: rest) = acquire_unused_port rest) := by
  refine ⟨?_, ?_, ?_, ?_⟩
  · intro env p msg h
    simp [try_acquire_specific_port, h]
  · intro env p p2 msg h1 h2 h3 h4
    simp [try_acquire_specific_port, h1, h2, h3, h4]
  · intro attempts
    induction attempts with
    | nil => intro port lock h; simp [acquire_unused_port] at h
    | cons env rest ih =>
      intro port lock h
      unfold acquire_unused_port at h
      rcases hp : pick_unused_port env with e | p2 <;> rw [hp] at h
      · simp at h
      · rcases hc : env.create with msg | u <;> rw [hc] at h
        · simp at h
        · rcases hl : env.tryLock with msg | u2 <;> rw [hl] at h
          · obtain ⟨env2, hmem, hrest⟩ := ih port lock h
            exact ⟨env2, List.mem_cons_of_mem _ hmem, hrest⟩
          · simp only [Option.some.injEq, Except.ok.injEq, Prod.mk.injEq] at h
            exact ⟨env, List.mem_cons_self _ _,
              by rw [hp, h.1], by cases u2; rw [hl], h.2.symm ▸ by rw [h.1]⟩
  · intro env rest port msg h1 h2 h3
    simp [acquire_unused_port, h1, h2, h3]

/-- C4 witness: a failing bind on port 3030, a held lock on port 3030, a
two-attempt OS-assigned acquisition that succeeds on port 4001, and a
re-pick after a held lock. -/
theorem port_reservation_lock_discipline_witness :
    try_acquire_specific_port
        ⟨.error "address in use", .ok 3030, .ok (), .ok ()⟩ 3030 =
      .error (.bindError 3030 "address in use") ∧
    try_acquire_specific_port
        ⟨.ok (), .ok 3030, .ok (), .error "lock held"⟩ 3030 =
      .error (.lockingError "lock held") ∧
    (∃ env ∈ [(⟨.ok (), .ok 4000, .ok (), .error "lock held"⟩ : PortEnv),
              ⟨.ok (), .ok 4001, .ok (), .ok ()⟩],
      pick_unused_port env = .ok 4001 ∧ env.tryLock = .ok () ∧
        lockPath 4001 = lockPath 4001) ∧
    acquire_unused_port
        [⟨.ok (), .ok 4000, .ok (), .error "lock held"⟩,
         ⟨.ok (), .ok 4001, .ok (), .ok ()⟩] =
      acquire_unused_port [⟨.ok (), .ok 4001, .ok (), .ok ()⟩] :=
  ⟨port_reservation_lock_discipline.1 _ 3030 _ rfl,
   port_reservation_lock_discipline.2.1 _ 3030 3030 _ rfl rfl rfl rfl,
   port_reservation_lock_discipline.2.2.1 _ 4001 (lockPath 4001) rfl,
   port_reservation_lock_discipline.2.2.2 _ _ 4000 "lock held" rfl rfl rfl⟩

end Sandbox
